import Mathlib

/- Shallow embedding of the tariff-calculation and contract-lifecycle engine of
the Billing-and-PPA-API repository (src/ppa_generator.py).

Modelling conventions:
* Python floats are modelled as exact rationals (ℚ).
* Python timezone-aware datetimes are modelled as integer seconds (ℤ); the
  Python expression `(b - a).days` on a timedelta floors the difference to
  whole days, modelled by `daysBetween` via `Int.fdiv _ 86400`.
* Python `int(x)` truncates toward zero, modelled by `ratTrunc`.
* Python `round(x, 4)` rounds half to even at the fourth decimal, modelled by
  `round4` built on `roundHalfEven`.
* Methods that read the wall clock (`datetime.now(timezone.utc)`) take that
  instant as an explicit `now : ℤ` parameter.
* Methods that mutate the PPA object in place are modelled as functions
  returning the updated PPA (or the updated field).
* Fallible constructors and operations return `Except String _`, carrying the
  Python exception message.
-/

/-- Whole days elapsed from instant `a` to instant `b` (seconds), as Python
timedelta `.days` computes it: floor division of the second difference. -/
def daysBetween (a b : ℤ) : ℤ :=
  Int.fdiv (b - a) 86400

/-- Python `int()` applied to a rational: truncation toward zero. -/
def ratTrunc (q : ℚ) : ℤ :=
  if 0 ≤ q then ⌊q⌋ else ⌈q⌉

/-- Round a rational to the nearest integer, ties to even, as Python `round`
does (idealised to exact arithmetic). -/
def roundHalfEven (q : ℚ) : ℤ :=
  let f := ⌊q⌋
  let r := q - (f : ℚ)
  if r < 1/2 then f
  else if 1/2 < r then f + 1
  else if f % 2 = 0 then f else f + 1

/-- Python `round(x, 4)`: round to four decimal places. -/
def round4 (q : ℚ) : ℚ :=
  ((roundHalfEven (q * 10000) : ℤ) : ℚ) / 10000

/-- ContractStatus enum of src/ppa_generator.py. -/
inductive ContractStatus where
  | draft
  | active
  | expired
  | terminated
deriving DecidableEq, Repr

/-- EscalationType enum of src/ppa_generator.py. -/
inductive EscalationType where
  | fixed_percentage
  | cpi_linked
  | wholesale_price_index
  | custom_schedule
deriving DecidableEq, Repr

/-- BusinessModel enum of src/ppa_generator.py. -/
inductive BusinessModel where
  | capex
  | opex
deriving DecidableEq, Repr

/-- EscalationSchedule model: one custom-escalation entry (year, rate). -/
structure EscalationSchedule where
  year : ℤ
  escalation_rate : ℚ
deriving DecidableEq, Repr

/-- TariffSlab model, restricted to the fields `calculate_slab_rate` reads:
min_consumption (inclusive), optional max_consumption (exclusive), rate. -/
structure TariffSlab where
  min_consumption : ℚ
  max_consumption : Option ℚ
  rate : ℚ
deriving DecidableEq, Repr

/-- BillingTerms model, restricted to the fields the claims exercise. -/
structure BillingTerms where
  tariff_rate : ℚ
  escalation_type : EscalationType
  escalation_rate : ℚ
  escalation_schedule : Option (List EscalationSchedule)
  billing_cycle : String
  payment_terms : String
  latePaymentPenaltyRate : Option ℚ
  business_model : BusinessModel
  capex_amount : Option ℚ
  opex_monthly_fee : Option ℚ
  opex_energy_rate : Option ℚ
deriving DecidableEq, Repr

/-- SystemSpecifications model, restricted to the fields `generate_ppa`
validates. -/
structure SystemSpecifications where
  capacity_kw : ℚ
  panel_type : String
  inverter_type : String
deriving DecidableEq, Repr

/-- One entry of `escalation_history` as built by `_record_escalation`. -/
structure EscalationRecord where
  year : ℤ
  escalation_rate : ℚ
  new_tariff_rate : ℚ
  date_applied : ℤ
deriving DecidableEq, Repr

/-- One entry of `energy_production_history`. -/
structure EnergyRecord where
  kwh : ℚ
  date : ℤ
  tariff_rate : ℚ
deriving DecidableEq, Repr

/-- One entry of `billing_history`. -/
structure BillingRecord where
  amount : ℚ
  date : ℤ
  tariff_rate : ℚ
deriving DecidableEq, Repr

/-- One entry of `payment_history`. -/
structure PaymentRecord where
  amount : ℚ
  date : ℤ
deriving DecidableEq, Repr

/-- One entry of `opex_payment_history` as built by `add_opex_payment`. -/
structure OpexPaymentRecord where
  amount : ℚ
  date : ℤ
  energy_consumed : ℚ
  monthly_fee : ℚ
  energy_cost : ℚ
deriving DecidableEq, Repr

/-- PPA model (src/ppa_generator.py class PPA), restricted to the fields the
claims exercise. -/
structure PPA where
  customer_id : String
  system_specs : SystemSpecifications
  billing_terms : BillingTerms
  start_date : ℤ
  end_date : ℤ
  contractStatus : ContractStatus
  total_energy_produced : ℚ
  total_billed : ℚ
  total_paid : ℚ
  last_billing_date : Option ℤ
  contract_duration_years : ℚ
  current_tariff_rate : ℚ
  payment_history : List PaymentRecord
  energy_production_history : List EnergyRecord
  billing_history : List BillingRecord
  escalation_history : List EscalationRecord
  opex_payment_history : List OpexPaymentRecord
  business_model : BusinessModel
deriving DecidableEq, Repr

/-- PPA.is_active: status is active and `start_date <= now <= end_date`, where
`now` is the wall-clock instant the method reads. -/
def PPA.is_active (p : PPA) (now : ℤ) : Bool :=
  decide (p.contractStatus = ContractStatus.active) &&
    decide (p.start_date ≤ now) && decide (now ≤ p.end_date)

/-- PPA.should_generate_invoice: false when inactive; true when no prior
billing; otherwise whole days since last billing compared to the cadence
threshold of the billing cycle (30 / 90 / 365); false for any other cycle. -/
def PPA.should_generate_invoice (p : PPA) (now : ℤ) : Bool :=
  if !(p.is_active now) then false
  else
    match p.last_billing_date with
    | none => true
    | some last =>
      if p.billing_terms.billing_cycle = "monthly" then
        decide (30 ≤ daysBetween last now)
      else if p.billing_terms.billing_cycle = "quarterly" then
        decide (90 ≤ daysBetween last now)
      else if p.billing_terms.billing_cycle = "annually" then
        decide (365 ≤ daysBetween last now)
      else false

/-- Does `escalation_history` already hold a record for `year`?  This is the
membership test of `_record_escalation`. -/
def hasYearRecord (hist : List EscalationRecord) (year : ℤ) : Bool :=
  hist.any (fun e => e.year == year)

/-- PPA._record_escalation: append a record for `year` unless one with that
year already exists.  `now` is the wall-clock instant stored as
`date_applied`. -/
def record_escalation (hist : List EscalationRecord) (year : ℤ)
    (esc_rate new_rate : ℚ) (now : ℤ) : List EscalationRecord :=
  if hasYearRecord hist year then hist
  else hist ++ [⟨year, esc_rate, new_rate, now⟩]

/-- One iteration of the custom-schedule loop in `calculate_current_tariff`:
if the entry year has been reached, multiply the running rate and record the
escalation; otherwise leave the accumulator unchanged. -/
def escalationStep (current_year now : ℤ) (acc : ℚ × List EscalationRecord)
    (s : EscalationSchedule) : ℚ × List EscalationRecord :=
  if s.year ≤ current_year then
    let r := acc.1 * (1 + s.escalation_rate)
    (r, record_escalation acc.2 s.year s.escalation_rate r now)
  else acc

/-- PPA.calculate_current_tariff.  Returns the computed rate together with the
(escalation_history after the call), since the custom-schedule branch mutates
that field in place in the source.  `now` is the wall-clock instant read by
the `is_active` check (and stamped on new escalation records);
`current_date` is the method argument.  The Python loop
`for _ in range(escalation_periods)` runs zero times when the period count is
negative, hence the exponent `Int.toNat`.  `365.25` is written `1461/4`.  The
Python guard `if not self.billing_terms.escalation_schedule` is true both for
None and for an empty list, hence the two base-rate cases. -/
def PPA.calculate_current_tariff (p : PPA) (now current_date : ℤ) :
    ℚ × List EscalationRecord :=
  if p.is_active now then
    let years_elapsed : ℚ := ((daysBetween p.start_date current_date : ℤ) : ℚ) / (1461/4)
    let current_year : ℤ := ratTrunc years_elapsed + 1
    match p.billing_terms.escalation_type with
    | EscalationType.fixed_percentage =>
      let escalation_periods := ratTrunc years_elapsed
      (round4 (p.billing_terms.tariff_rate *
        (1 + p.billing_terms.escalation_rate) ^ escalation_periods.toNat),
       p.escalation_history)
    | EscalationType.custom_schedule =>
      match p.billing_terms.escalation_schedule with
      | none => (p.billing_terms.tariff_rate, p.escalation_history)
      | some [] => (p.billing_terms.tariff_rate, p.escalation_history)
      | some sched =>
        let res := sched.foldl (escalationStep current_year now)
          (p.billing_terms.tariff_rate, p.escalation_history)
        (round4 res.1, res.2)
    | EscalationType.cpi_linked => (p.billing_terms.tariff_rate, p.escalation_history)
    | EscalationType.wholesale_price_index =>
      (p.billing_terms.tariff_rate, p.escalation_history)
  else (0, p.escalation_history)

/-- PPA.add_energy_production: append a production record (stamped with the
tariff at `reading_date`) and increase the energy total.  The embedded tariff
call also updates `escalation_history`, as it does in the source. -/
def PPA.add_energy_production (p : PPA) (kwh : ℚ) (reading_date now : ℤ) : PPA :=
  let tr := p.calculate_current_tariff now reading_date
  { p with
    energy_production_history :=
      p.energy_production_history ++ [⟨kwh, reading_date, tr.1⟩],
    escalation_history := tr.2,
    total_energy_produced := p.total_energy_produced + kwh }

/-- PPA.add_billing_record: append a billing record, increase the billed
total, and set `last_billing_date`. -/
def PPA.add_billing_record (p : PPA) (amount : ℚ) (billing_date now : ℤ) : PPA :=
  let tr := p.calculate_current_tariff now billing_date
  { p with
    billing_history := p.billing_history ++ [⟨amount, billing_date, tr.1⟩],
    escalation_history := tr.2,
    total_billed := p.total_billed + amount,
    last_billing_date := some billing_date }

/-- PPA.add_payment_record: append a payment record and increase the paid
total. -/
def PPA.add_payment_record (p : PPA) (amount : ℚ) (payment_date : ℤ) : PPA :=
  { p with
    payment_history := p.payment_history ++ [⟨amount, payment_date⟩],
    total_paid := p.total_paid + amount }

/-- PPA.add_opex_payment: append an OPEX payment record and increase the paid
total. -/
def PPA.add_opex_payment (p : PPA) (amount : ℚ) (payment_date : ℤ)
    (energy_consumed : ℚ) : PPA :=
  { p with
    opex_payment_history := p.opex_payment_history ++
      [⟨amount, payment_date, energy_consumed,
        p.billing_terms.opex_monthly_fee.getD 0,
        amount - p.billing_terms.opex_monthly_fee.getD 0⟩],
    total_paid := p.total_paid + amount }

/-- Inner guard of the `calculate_slab_rate` loop:
`not slab.max_consumption or consumption_kwh < slab.max_consumption`.
Python truthiness makes `not slab.max_consumption` true both when the field is
None and when it equals 0.0. -/
def slab_upper_ok (c : ℚ) : Option ℚ → Bool
  | none => true
  | some m => decide (m = 0) || decide (c < m)

/-- The scan loop of `calculate_slab_rate`: return the rate of the first slab
whose guards pass, in list order. -/
def findFirstSlab (c : ℚ) : List TariffSlab → Option ℚ
  | [] => none
  | s :: rest =>
    if s.min_consumption ≤ c then
      if slab_upper_ok c s.max_consumption then some s.rate
      else findFirstSlab c rest
    else findFirstSlab c rest

/-- calculate_slab_rate (src/ppa_generator.py): first matching slab rate, else
the last slab rate, else 0 for the empty list. -/
def calculate_slab_rate (c : ℚ) (slabs : List TariffSlab) : ℚ :=
  match findFirstSlab c slabs with
  | some r => r
  | none =>
    match slabs.getLast? with
    | some s => s.rate
    | none => 0

/-- Slab predicate as the claim words it: min inclusive, and max unset or
strictly above the consumption. -/
def slab_matches_claim (c : ℚ) (s : TariffSlab) : Bool :=
  decide (s.min_consumption ≤ c) &&
    (match s.max_consumption with
     | none => true
     | some m => decide (c < m))

/-- Slab predicate as amended: Python falsiness also treats a max of exactly 0
as no upper bound. -/
def slab_matches_amended (c : ℚ) (s : TariffSlab) : Bool :=
  decide (s.min_consumption ≤ c) &&
    (match s.max_consumption with
     | none => true
     | some m => decide (m = 0) || decide (c < m))

/-- Slab resolution as the claim words it: rate of the first slab satisfying
`slab_matches_claim`, else last slab rate, else 0. -/
def resolve_slab_rate_claim (c : ℚ) (slabs : List TariffSlab) : ℚ :=
  match slabs.find? (slab_matches_claim c) with
  | some s => s.rate
  | none =>
    match slabs.getLast? with
    | some s => s.rate
    | none => 0

/-- Slab resolution as amended (max unset or zero counts as unbounded). -/
def resolve_slab_rate_amended (c : ℚ) (slabs : List TariffSlab) : ℚ :=
  match slabs.find? (slab_matches_amended c) with
  | some s => s.rate
  | none =>
    match slabs.getLast? with
    | some s => s.rate
    | none => 0

/-- Validator `validate_escalation_schedule` on BillingTerms: years must be
unique and `min(years)` must be at least 1.  Python `min` raises on an empty
sequence, which pydantic surfaces as a validation error as well. -/
def validate_escalation_schedule (sched : Option (List EscalationSchedule)) :
    Except String Unit :=
  match sched with
  | none => Except.ok ()
  | some l =>
    let years := l.map (fun s => s.year)
    if years.Nodup then
      match years with
      | [] => Except.error "min arg is an empty sequence"
      | y :: ys =>
        if ys.foldl min y < 1 then
          Except.error "Escalation schedule years must start from 1"
        else Except.ok ()
    else Except.error "Escalation schedule years must be unique"

/-- Validator `penalty_max_10` on BillingTerms. -/
def penalty_max_10 (v : Option ℚ) : Except String Unit :=
  match v with
  | some r =>
    if r > 10 then Except.error "latePaymentPenaltyRate cannot exceed 10 percent"
    else Except.ok ()
  | none => Except.ok ()

/-- Root validator `validate_business_model_fields` on BillingTerms. -/
def validate_business_model_fields (bt : BillingTerms) : Except String Unit :=
  match bt.business_model with
  | BusinessModel.capex =>
    match bt.capex_amount with
    | none => Except.error "CAPEX amount must be specified and greater than 0 for CAPEX model"
    | some a =>
      if a ≤ 0 then
        Except.error "CAPEX amount must be specified and greater than 0 for CAPEX model"
      else Except.ok ()
  | BusinessModel.opex =>
    match bt.opex_monthly_fee with
    | none => Except.error "OPEX monthly fee must be specified and greater than 0 for OPEX model"
    | some f =>
      if f ≤ 0 then
        Except.error "OPEX monthly fee must be specified and greater than 0 for OPEX model"
      else
        match bt.opex_energy_rate with
        | none => Except.error "OPEX energy rate must be specified and greater than 0 for OPEX model"
        | some r =>
          if r ≤ 0 then
            Except.error "OPEX energy rate must be specified and greater than 0 for OPEX model"
          else Except.ok ()

/-- All pydantic validators run at BillingTerms construction, in field order:
escalation-schedule validator, penalty validator, then the root validator. -/
def billing_terms_validators (bt : BillingTerms) : Except String Unit :=
  match validate_escalation_schedule bt.escalation_schedule with
  | Except.error m => Except.error m
  | Except.ok _ =>
    match penalty_max_10 bt.latePaymentPenaltyRate with
    | Except.error m => Except.error m
    | Except.ok _ => validate_business_model_fields bt

/-- generate_ppa (src/ppa_generator.py): the validation chain and construction
of the new PPA, in source order.  `now` is the wall-clock instant read at the
top of the function.  The Python guards `if not system_specs.panel_type`
treat the empty string as missing. -/
def generate_ppa (now : ℤ) (customer_id : String)
    (system_specs : SystemSpecifications) (billing_terms : BillingTerms)
    (start_date end_date : ℤ) : Except String PPA :=
  if start_date ≥ end_date then
    Except.error "Start date must be before end date"
  else if start_date < now - 365 * 86400 then
    Except.error "Start date cannot be more than 1 year in the past"
  else if start_date > now + 730 * 86400 then
    Except.error "Start date cannot be more than 2 years in the future"
  else if system_specs.capacity_kw ≤ 0 then
    Except.error "System capacity must be greater than 0"
  else if system_specs.panel_type = "" then
    Except.error "Panel type is required"
  else if system_specs.inverter_type = "" then
    Except.error "Inverter type is required"
  else if billing_terms.tariff_rate ≤ 0 then
    Except.error "Tariff rate must be greater than 0"
  else if billing_terms.escalation_rate < 0 then
    Except.error "Escalation rate cannot be negative"
  else if billing_terms.billing_cycle ∉ (["monthly", "quarterly", "annually"] : List String) then
    Except.error "Invalid billing cycle"
  else if billing_terms.payment_terms ∉ (["net15", "net30", "net45", "net60"] : List String) then
    Except.error "Invalid payment terms"
  else
    Except.ok
      { customer_id := customer_id
        system_specs := system_specs
        billing_terms := billing_terms
        start_date := start_date
        end_date := end_date
        contractStatus :=
          if start_date ≤ now then ContractStatus.active else ContractStatus.draft
        total_energy_produced := 0
        total_billed := 0
        total_paid := 0
        last_billing_date := none
        contract_duration_years :=
          ((daysBetween start_date end_date : ℤ) : ℚ) / (1461/4)
        current_tariff_rate := billing_terms.tariff_rate
        payment_history := []
        energy_production_history := []
        billing_history := []
        escalation_history := []
        opex_payment_history := []
        business_model := billing_terms.business_model }

/-- Creation of a PPA together with its billing terms: the pydantic
validators fire when the BillingTerms value is constructed, before
`generate_ppa` runs its own checks. -/
def create_ppa (now : ℤ) (customer_id : String)
    (system_specs : SystemSpecifications) (billing_terms : BillingTerms)
    (start_date end_date : ℤ) : Except String PPA :=
  match billing_terms_validators billing_terms with
  | Except.error m => Except.error m
  | Except.ok _ => generate_ppa now customer_id system_specs billing_terms start_date end_date

/-- Calendar date (proleptic Gregorian), for the parts of the source that use
`.replace(day=1)` and day-of-month structure. -/
structure Date where
  year : ℤ
  month : ℤ
  day : ℤ
deriving DecidableEq, Repr

/-- Days since 1970-01-01 of a civil date (standard civil-calendar
conversion). -/
def daysFromCivil (d : Date) : ℤ :=
  let y := if d.month ≤ 2 then d.year - 1 else d.year
  let era := Int.fdiv y 400
  let yoe := y - era * 400
  let mp := Int.emod (d.month + 9) 12
  let doy := Int.fdiv (153 * mp + 2) 5 + d.day - 1
  let doe := yoe * 365 + Int.fdiv yoe 4 - Int.fdiv yoe 100 + doy
  era * 146097 + doe - 719468

/-- Civil date of a number of days since 1970-01-01 (inverse conversion). -/
def civilFromDays (z0 : ℤ) : Date :=
  let z := z0 + 719468
  let era := Int.fdiv z 146097
  let doe := z - era * 146097
  let yoe := Int.fdiv (doe - Int.fdiv doe 1460 + Int.fdiv doe 36524 - Int.fdiv doe 146096) 365
  let y := yoe + era * 400
  let doy := doe - (365 * yoe + Int.fdiv yoe 4 - Int.fdiv yoe 100)
  let mp := Int.fdiv (5 * doy + 2) 153
  let d := doy - Int.fdiv (153 * mp + 2) 5 + 1
  let m := mp + (if mp < 10 then 3 else -9)
  { year := y + (if m ≤ 2 then 1 else 0), month := m, day := d }

/-- Python `date + timedelta(days=n)`. -/
def addDays (d : Date) (n : ℤ) : Date :=
  civilFromDays (daysFromCivil d + n)

/-- Python `.replace(day=1)`. -/
def withDay1 (d : Date) : Date :=
  { d with day := 1 }

/-- The next-billing-date computation of `update_ppa_billing`
(src/ppa_generator.py lines 979-988): base date is the stored
last_billing_date when present, else the contract start; monthly adds 32 days
then truncates to the first of the month, quarterly adds 92 days likewise;
any other cycle (annually included) stores no next billing date. -/
def update_ppa_billing_next_date (cycle : String)
    (last_billing_date : Option Date) (start_date : Date) : Option Date :=
  let base := last_billing_date.getD start_date
  if cycle = "monthly" then some (withDay1 (addDays base 32))
  else if cycle = "quarterly" then some (withDay1 (addDays base 92))
  else none

/-- Sample system specifications used as concrete inputs. -/
def sample_specs : SystemSpecifications := ⟨5, "mono", "inv-x"⟩

/-- Sample billing terms with fixed-percentage escalation (base rate 8,
escalation 2 percent, monthly cycle). -/
def bt_fixed : BillingTerms :=
  { tariff_rate := 8, escalation_type := EscalationType.fixed_percentage,
    escalation_rate := 2/100, escalation_schedule := none,
    billing_cycle := "monthly", payment_terms := "net30",
    latePaymentPenaltyRate := some 0, business_model := BusinessModel.capex,
    capex_amount := some 100000, opex_monthly_fee := none, opex_energy_rate := none }

/-- Sample billing terms with a custom escalation schedule. -/
def bt_custom : BillingTerms :=
  { tariff_rate := 10, escalation_type := EscalationType.custom_schedule,
    escalation_rate := 0, escalation_schedule := some [⟨1, 5/100⟩, ⟨2, 3/100⟩],
    billing_cycle := "monthly", payment_terms := "net30",
    latePaymentPenaltyRate := some 0, business_model := BusinessModel.capex,
    capex_amount := some 100000, opex_monthly_fee := none, opex_energy_rate := none }

/-- Sample billing terms whose tariff rate is invalid (zero). -/
def bt_bad_tariff : BillingTerms :=
  { bt_fixed with tariff_rate := 0 }

/-- Sample active PPA starting at instant 0 (1970-01-01, a non-leap year)
with fixed-percentage escalation. -/
def ppa_fixed : PPA :=
  { customer_id := "cust-1", system_specs := sample_specs, billing_terms := bt_fixed,
    start_date := 0, end_date := 1000000000, contractStatus := ContractStatus.active,
    total_energy_produced := 0, total_billed := 0, total_paid := 0,
    last_billing_date := none, contract_duration_years := 25, current_tariff_rate := 8,
    payment_history := [], energy_production_history := [], billing_history := [],
    escalation_history := [], opex_payment_history := [],
    business_model := BusinessModel.capex }

/-- Sample active PPA with a custom escalation schedule. -/
def ppa_custom : PPA :=
  { ppa_fixed with billing_terms := bt_custom }

/-- The amended slab predicate splits as the source loop's two nested
guards. -/
theorem slab_matches_amended_eq (c : ℚ) (s : TariffSlab) :
    slab_matches_amended c s =
      (decide (s.min_consumption ≤ c) && slab_upper_ok c s.max_consumption) := by
  cases h : s.max_consumption <;> simp [slab_matches_amended, slab_upper_ok, h]

/-- The source scan loop returns exactly the first slab accepted by the
amended predicate. -/
theorem findFirstSlab_eq_find (c : ℚ) (l : List TariffSlab) :
    findFirstSlab c l = (l.find? (slab_matches_amended c)).map (fun s => s.rate) := by
  induction l with
  | nil => rfl
  | cons s rest ih =>
    by_cases hm : slab_matches_amended c s = true
    · have h := hm
      rw [slab_matches_amended_eq, Bool.and_eq_true, decide_eq_true_iff] at h
      rw [List.find?_cons_of_pos _ hm]
      simp [findFirstSlab, h.1, h.2]
    · rw [List.find?_cons_of_neg _ hm]
      rw [slab_matches_amended_eq, Bool.and_eq_true] at hm
      by_cases h1 : s.min_consumption ≤ c
      · have h2 : slab_upper_ok c s.max_consumption = false := by
          rcases Bool.eq_false_or_eq_true (slab_upper_ok c s.max_consumption) with h | h
          · exact absurd ⟨by simpa using h1, h⟩ hm
          · exact h
        simp [findFirstSlab, h1, h2, ih]
      · simp [findFirstSlab, h1, ih]

/-- C3 counterexample input: two slabs, the first with `max_consumption = 0.0`
(set, not unset) and rate 5, the second unbounded with rate 7, at
consumption 10. -/
theorem claim_C3_counterexample :
    calculate_slab_rate 10 [⟨0, some 0, 5⟩, ⟨0, none, 7⟩] = 5 ∧
    resolve_slab_rate_claim 10 [⟨0, some 0, 5⟩, ⟨0, none, 7⟩] = 7 ∧
    (5 : ℚ) ≠ 7 := by
  refine ⟨?_, ?_, by norm_num⟩
  · norm_num [calculate_slab_rate, findFirstSlab, slab_upper_ok]
  · norm_num [resolve_slab_rate_claim, slab_matches_claim, List.find?]

/-- C3 (amended): calculate_slab_rate returns the rate of the first slab in
list order whose min_consumption is at most the consumption and whose
max_consumption is unset, zero (Python falsiness), or strictly above the
consumption; a consumption equal to a slab minimum selects that slab; if no
slab matches it returns the last slab rate, and 0 for the empty list. -/
theorem claim_C3_amended (c : ℚ) (slabs : List TariffSlab) :
    calculate_slab_rate c slabs = resolve_slab_rate_amended c slabs := by
  unfold calculate_slab_rate resolve_slab_rate_amended
  rw [findFirstSlab_eq_find]
  cases h : slabs.find? (slab_matches_amended c) <;> simp

/-- C2: a PPA that is not active at the evaluation instant (status not
active, or the instant outside the start/end window) gets tariff 0 from
calculate_current_tariff, whatever the escalation type. -/
theorem claim_C2 (p : PPA) (t : ℤ) (h : p.is_active t = false) :
    (p.calculate_current_tariff t t).1 = 0 := by
  simp [PPA.calculate_current_tariff, h]

/-- C2 witness: the sample PPA one second before its start date. -/
theorem claim_C2_witness :
    ppa_fixed.is_active (-1) = false ∧
    (ppa_fixed.calculate_current_tariff (-1) (-1)).1 = 0 :=
  ⟨rfl, claim_C2 ppa_fixed (-1) rfl⟩

/-- C4: should_generate_invoice is false for an inactive PPA, true for an
active PPA with no last billing date, and otherwise true exactly when the
whole days elapsed since the last billing date reach the cycle threshold
(30 monthly, 90 quarterly, 365 annually). -/
theorem claim_C4 (p : PPA) (now : ℤ) :
    (p.is_active now = false → p.should_generate_invoice now = false) ∧
    (p.is_active now = true → p.last_billing_date = none →
      p.should_generate_invoice now = true) ∧
    (∀ last, p.is_active now = true → p.last_billing_date = some last →
      (p.billing_terms.billing_cycle = "monthly" →
        (p.should_generate_invoice now = true ↔ 30 ≤ daysBetween last now)) ∧
      (p.billing_terms.billing_cycle = "quarterly" →
        (p.should_generate_invoice now = true ↔ 90 ≤ daysBetween last now)) ∧
      (p.billing_terms.billing_cycle = "annually" →
        (p.should_generate_invoice now = true ↔ 365 ≤ daysBetween last now))) := by
  refine ⟨fun h => ?_, fun h hl => ?_, fun last h hl => ⟨fun hc => ?_, fun hc => ?_, fun hc => ?_⟩⟩
  · simp [PPA.should_generate_invoice, h]
  · simp [PPA.should_generate_invoice, h, hl]
  · simp [PPA.should_generate_invoice, h, hl, hc]
  · simp [PPA.should_generate_invoice, h, hl, hc]
  · simp [PPA.should_generate_invoice, h, hl, hc]

/-- C4 witness: the sample active PPA with no prior billing must invoice. -/
theorem claim_C4_witness :
    ppa_fixed.should_generate_invoice 0 = true :=
  (claim_C4 ppa_fixed 0).2.1 rfl rfl

/-- C9 counterexample: a payment of -1 strictly decreases total_paid, so the
running totals are not monotone for arbitrary (including negative)
amounts. -/
theorem claim_C9_counterexample :
    (ppa_fixed.add_payment_record (-1) 0).total_paid < ppa_fixed.total_paid := by
  norm_num [PPA.add_payment_record, ppa_fixed]

/-- C9 (amended): with non-negative kwh and amounts, none of the four ledger
operations decreases any of the three running totals. -/
theorem claim_C9_amended (p : PPA) (x : ℚ) (d now : ℤ) (ec : ℚ) (hx : 0 ≤ x) :
    (p.total_energy_produced ≤ (p.add_energy_production x d now).total_energy_produced ∧
     p.total_billed ≤ (p.add_energy_production x d now).total_billed ∧
     p.total_paid ≤ (p.add_energy_production x d now).total_paid) ∧
    (p.total_energy_produced ≤ (p.add_billing_record x d now).total_energy_produced ∧
     p.total_billed ≤ (p.add_billing_record x d now).total_billed ∧
     p.total_paid ≤ (p.add_billing_record x d now).total_paid) ∧
    (p.total_energy_produced ≤ (p.add_payment_record x d).total_energy_produced ∧
     p.total_billed ≤ (p.add_payment_record x d).total_billed ∧
     p.total_paid ≤ (p.add_payment_record x d).total_paid) ∧
    (p.total_energy_produced ≤ (p.add_opex_payment x d ec).total_energy_produced ∧
     p.total_billed ≤ (p.add_opex_payment x d ec).total_billed ∧
     p.total_paid ≤ (p.add_opex_payment x d ec).total_paid) := by
  refine ⟨⟨?_, ?_, ?_⟩, ⟨?_, ?_, ?_⟩, ⟨?_, ?_, ?_⟩, ⟨?_, ?_, ?_⟩⟩ <;>
    simp [PPA.add_energy_production, PPA.add_billing_record,
      PPA.add_payment_record, PPA.add_opex_payment] <;> linarith

/-- C9 witness: the amended monotonicity at the sample PPA with amount 0. -/
theorem claim_C9_witness :
    (ppa_fixed.total_energy_produced ≤
       (ppa_fixed.add_energy_production 0 0 0).total_energy_produced ∧
     ppa_fixed.total_billed ≤ (ppa_fixed.add_energy_production 0 0 0).total_billed ∧
     ppa_fixed.total_paid ≤ (ppa_fixed.add_energy_production 0 0 0).total_paid) ∧
    (ppa_fixed.total_energy_produced ≤
       (ppa_fixed.add_billing_record 0 0 0).total_energy_produced ∧
     ppa_fixed.total_billed ≤ (ppa_fixed.add_billing_record 0 0 0).total_billed ∧
     ppa_fixed.total_paid ≤ (ppa_fixed.add_billing_record 0 0 0).total_paid) ∧
    (ppa_fixed.total_energy_produced ≤
       (ppa_fixed.add_payment_record 0 0).total_energy_produced ∧
     ppa_fixed.total_billed ≤ (ppa_fixed.add_payment_record 0 0).total_billed ∧
     ppa_fixed.total_paid ≤ (ppa_fixed.add_payment_record 0 0).total_paid) ∧
    (ppa_fixed.total_energy_produced ≤
       (ppa_fixed.add_opex_payment 0 0 0).total_energy_produced ∧
     ppa_fixed.total_billed ≤ (ppa_fixed.add_opex_payment 0 0 0).total_billed ∧
     ppa_fixed.total_paid ≤ (ppa_fixed.add_opex_payment 0 0 0).total_paid) :=
  claim_C9_amended ppa_fixed 0 0 0 0 (le_refl 0)

/-- An active check at instant `t` yields the three component facts. -/
theorem is_active_components (p : PPA) (t : ℤ) (h : p.is_active t = true) :
    p.contractStatus = ContractStatus.active ∧ p.start_date ≤ t ∧ t ≤ p.end_date := by
  have h' := h
  simp only [PPA.is_active, Bool.and_eq_true, decide_eq_true_eq] at h'
  exact ⟨h'.1.1, h'.1.2, h'.2⟩

/-- C1 counterexample input: the sample PPA (base 8, escalation 0.02) starts
at instant 0 (1970-01-01) and is evaluated exactly one calendar year later
(365 days, 1970 is not a leap year).  The claim predicts
base × (1 + esc)^1 = 8.16 at start plus one whole year; the code computes
floor(365 / 365.25) = 0 periods and returns 8. -/
theorem claim_C1_counterexample :
    (ppa_fixed.calculate_current_tariff 31536000 31536000).1 = 8 ∧
    round4 (8 * (1 + 2/100) ^ (1 : ℕ)) = 816/100 ∧
    (8 : ℚ) ≠ 816/100 := by
  refine ⟨?_, ?_, by norm_num⟩
  · have hd : daysBetween 0 31536000 = 365 := by decide
    simp only [PPA.calculate_current_tariff, ppa_fixed, bt_fixed, sample_specs]
    norm_num [hd, PPA.is_active, ratTrunc, round4, roundHalfEven]
  · norm_num [round4, roundHalfEven]

/-- C1 (amended): for an active fixed-percentage PPA evaluated at instant t,
the rate is base × (1+esc)^floor(days / 365.25) rounded to 4 decimals; at
zero elapsed days this is the base rate rounded; and the exponent equals k
exactly when 365.25 k ≤ days < 365.25 (k+1) — adding k calendar years can
fall one period short of k when too few leap days accumulated. -/
theorem claim_C1_amended (p : PPA) (t : ℤ)
    (hact : p.is_active t = true)
    (hesc : p.billing_terms.escalation_type = EscalationType.fixed_percentage) :
    (p.calculate_current_tariff t t).1 =
      round4 (p.billing_terms.tariff_rate *
        (1 + p.billing_terms.escalation_rate) ^
          (⌊((daysBetween p.start_date t : ℤ) : ℚ) / (1461/4)⌋).toNat) ∧
    (daysBetween p.start_date t = 0 →
      (p.calculate_current_tariff t t).1 = round4 p.billing_terms.tariff_rate) ∧
    (∀ k : ℕ, (1461 * k : ℤ) ≤ 4 * daysBetween p.start_date t →
      (4 * daysBetween p.start_date t : ℤ) < 1461 * (k + 1) →
      (p.calculate_current_tariff t t).1 =
        round4 (p.billing_terms.tariff_rate *
          (1 + p.billing_terms.escalation_rate) ^ k)) := by
  obtain ⟨-, hstart, -⟩ := is_active_components p t hact
  have hd0 : (0 : ℤ) ≤ daysBetween p.start_date t :=
    Int.fdiv_nonneg (by omega) (by norm_num)
  have hy0 : (0 : ℚ) ≤ ((daysBetween p.start_date t : ℤ) : ℚ) / (1461/4) :=
    div_nonneg (by exact_mod_cast hd0) (by norm_num)
  have htr : ratTrunc (((daysBetween p.start_date t : ℤ) : ℚ) / (1461/4)) =
      ⌊((daysBetween p.start_date t : ℤ) : ℚ) / (1461/4)⌋ := by
    rw [ratTrunc, if_pos hy0]
  have hmain : (p.calculate_current_tariff t t).1 =
      round4 (p.billing_terms.tariff_rate *
        (1 + p.billing_terms.escalation_rate) ^
          (⌊((daysBetween p.start_date t : ℤ) : ℚ) / (1461/4)⌋).toNat) := by
    simp only [PPA.calculate_current_tariff, hact, if_true, hesc, htr]
  refine ⟨hmain, fun hz => ?_, fun k hk1 hk2 => ?_⟩
  · rw [hmain, hz]
    norm_num
  · have hfk : ⌊((daysBetween p.start_date t : ℤ) : ℚ) / (1461/4)⌋ = (k : ℤ) := by
      rw [Int.floor_eq_iff]
      constructor
      · rw [le_div_iff₀ (by norm_num : (0:ℚ) < 1461/4)]
        have : ((1461 * k : ℤ) : ℚ) ≤ ((4 * daysBetween p.start_date t : ℤ) : ℚ) := by
          exact_mod_cast hk1
        push_cast at this ⊢
        linarith
      · rw [div_lt_iff₀ (by norm_num : (0:ℚ) < 1461/4)]
        have : ((4 * daysBetween p.start_date t : ℤ) : ℚ) < ((1461 * (k + 1) : ℤ) : ℚ) := by
          exact_mod_cast hk2
        push_cast at this ⊢
        linarith
    rw [hmain, hfk, Int.toNat_natCast]

/-- C1 witness: the sample PPA at its start date. -/
theorem claim_C1_witness :
    (ppa_fixed.calculate_current_tariff 0 0).1 =
      round4 (ppa_fixed.billing_terms.tariff_rate *
        (1 + ppa_fixed.billing_terms.escalation_rate) ^
          (⌊((daysBetween ppa_fixed.start_date 0 : ℤ) : ℚ) / (1461/4)⌋).toNat) :=
  (claim_C1_amended ppa_fixed 0 rfl rfl).1

/-- Recording a year makes it present in the history. -/
theorem hasYearRecord_record_self (hist : List EscalationRecord) (y : ℤ)
    (r nr : ℚ) (now : ℤ) :
    hasYearRecord (record_escalation hist y r nr now) y = true := by
  rw [record_escalation]
  by_cases h : hasYearRecord hist y = true
  · rw [if_pos h]; exact h
  · rw [if_neg h]
    simp [hasYearRecord]

/-- Recording never removes a year already present. -/
theorem hasYearRecord_record_mono (hist : List EscalationRecord) (y y' : ℤ)
    (r nr : ℚ) (now : ℤ) (h : hasYearRecord hist y = true) :
    hasYearRecord (record_escalation hist y' r nr now) y = true := by
  rw [record_escalation]
  by_cases h' : hasYearRecord hist y' = true
  · rw [if_pos h']; exact h
  · rw [if_neg h']
    simp only [hasYearRecord, List.any_append]
    simp only [hasYearRecord] at h
    rw [h]
    rfl

/-- Recording a year that is already present is a no-op. -/
theorem record_escalation_no_op (hist : List EscalationRecord) (y : ℤ)
    (r nr : ℚ) (now : ℤ) (h : hasYearRecord hist y = true) :
    record_escalation hist y r nr now = hist := by
  rw [record_escalation, if_pos h]

/-- Recording preserves distinctness of the recorded years. -/
theorem record_escalation_nodup (hist : List EscalationRecord) (y : ℤ)
    (r nr : ℚ) (now : ℤ)
    (h : (hist.map (fun e => e.year)).Nodup) :
    ((record_escalation hist y r nr now).map (fun e => e.year)).Nodup := by
  rw [record_escalation]
  by_cases hy : hasYearRecord hist y = true
  · rw [if_pos hy]; exact h
  · rw [if_neg hy]
    have hnot : y ∉ hist.map (fun e => e.year) := by
      intro hmem
      apply hy
      simp only [List.mem_map] at hmem
      obtain ⟨e, he, hey⟩ := hmem
      simp only [hasYearRecord, List.any_eq_true]
      exact ⟨e, he, by simp [hey]⟩
    simp only [List.map_append, List.map_cons, List.map_nil]
    rw [List.nodup_append]
    refine ⟨h, List.nodup_singleton y, ?_⟩
    intro a ha hb
    simp only [List.mem_singleton] at hb
    subst hb
    exact hnot ha

/-- The rate component of the custom-schedule fold does not depend on the
history component of the accumulator. -/
theorem esc_fold_fst_indep (cy now : ℤ) (sched : List EscalationSchedule)
    (x : ℚ) (h h' : List EscalationRecord) :
    (sched.foldl (escalationStep cy now) (x, h)).1 =
      (sched.foldl (escalationStep cy now) (x, h')).1 := by
  induction sched generalizing x h h' with
  | nil => rfl
  | cons s rest ih =>
    simp only [List.foldl_cons, escalationStep]
    by_cases hs : s.year ≤ cy
    · rw [if_pos hs, if_pos hs]
      exact ih _ _ _
    · rw [if_neg hs, if_neg hs]
      exact ih _ _ _

/-- The fold never removes a year already present in the history. -/
theorem esc_fold_mem_mono (cy now : ℤ) (sched : List EscalationSchedule)
    (x : ℚ) (h : List EscalationRecord) (y : ℤ)
    (hy : hasYearRecord h y = true) :
    hasYearRecord (sched.foldl (escalationStep cy now) (x, h)).2 y = true := by
  induction sched generalizing x h with
  | nil => exact hy
  | cons s rest ih =>
    simp only [List.foldl_cons, escalationStep]
    by_cases hs : s.year ≤ cy
    · rw [if_pos hs]
      exact ih _ _ (hasYearRecord_record_mono _ _ _ _ _ _ hy)
    · rw [if_neg hs]
      exact ih _ _ hy

/-- After the fold, every schedule year that was due is present in the
history. -/
theorem esc_fold_all_mem (cy now : ℤ) (sched : List EscalationSchedule)
    (x : ℚ) (h : List EscalationRecord) (s : EscalationSchedule)
    (hs : s ∈ sched) (hle : s.year ≤ cy) :
    hasYearRecord (sched.foldl (escalationStep cy now) (x, h)).2 s.year = true := by
  induction sched generalizing x h with
  | nil => cases hs
  | cons a rest ih =>
    simp only [List.foldl_cons, escalationStep]
    rcases List.mem_cons.mp hs with rfl | hmem
    · rw [if_pos hle]
      exact esc_fold_mem_mono cy now rest _ _ _
        (hasYearRecord_record_self _ _ _ _ _)
    · by_cases ha : a.year ≤ cy
      · rw [if_pos ha]
        exact ih _ _ hmem
      · rw [if_neg ha]
        exact ih _ _ hmem

/-- If every due schedule year is already present, the fold leaves the
history unchanged. -/
theorem esc_fold_no_op (cy now : ℤ) (sched : List EscalationSchedule)
    (x : ℚ) (h : List EscalationRecord)
    (hall : ∀ s ∈ sched, s.year ≤ cy → hasYearRecord h s.year = true) :
    (sched.foldl (escalationStep cy now) (x, h)).2 = h := by
  induction sched generalizing x with
  | nil => rfl
  | cons a rest ih =>
    simp only [List.foldl_cons, escalationStep]
    by_cases ha : a.year ≤ cy
    · rw [if_pos ha]
      rw [record_escalation_no_op _ _ _ _ _ (hall a (List.mem_cons_self a rest) ha)]
      exact ih _ fun s hs hle => hall s (List.mem_cons_of_mem a hs) hle
    · rw [if_neg ha]
      exact ih _ fun s hs hle => hall s (List.mem_cons_of_mem a hs) hle

/-- The fold preserves distinctness of the recorded years. -/
theorem esc_fold_nodup (cy now : ℤ) (sched : List EscalationSchedule)
    (x : ℚ) (h : List EscalationRecord)
    (hn : (h.map (fun e => e.year)).Nodup) :
    (((sched.foldl (escalationStep cy now) (x, h)).2).map (fun e => e.year)).Nodup := by
  induction sched generalizing x h with
  | nil => exact hn
  | cons a rest ih =>
    simp only [List.foldl_cons, escalationStep]
    by_cases ha : a.year ≤ cy
    · rw [if_pos ha]
      exact ih _ _ (record_escalation_nodup _ _ _ _ _ hn)
    · rw [if_neg ha]
      exact ih _ _ hn

/-- Updating the escalation history does not change the activity check. -/
theorem is_active_update_history (p : PPA) (h : List EscalationRecord) (t : ℤ) :
    ({ p with escalation_history := h } : PPA).is_active t = p.is_active t := rfl

/-- C5: for an active custom-schedule PPA, re-evaluating
calculate_current_tariff at the same instant (with the escalation history
left by the first call) returns the same rate and leaves the history
unchanged, and the history never records a schedule year twice. -/
theorem claim_C5 (p : PPA) (t : ℤ)
    (hact : p.is_active t = true)
    (hesc : p.billing_terms.escalation_type = EscalationType.custom_schedule) :
    (({ p with escalation_history :=
        (p.calculate_current_tariff t t).2 } : PPA).calculate_current_tariff t t).1 =
      (p.calculate_current_tariff t t).1 ∧
    (({ p with escalation_history :=
        (p.calculate_current_tariff t t).2 } : PPA).calculate_current_tariff t t).2 =
      (p.calculate_current_tariff t t).2 ∧
    ((p.escalation_history.map (fun e => e.year)).Nodup →
      (((p.calculate_current_tariff t t).2).map (fun e => e.year)).Nodup) := by
  cases hsched : p.billing_terms.escalation_schedule with
  | none =>
    simp only [PPA.calculate_current_tariff, is_active_update_history, hact,
      if_true, hesc, hsched]
    exact ⟨trivial, trivial, fun hn => hn⟩
  | some l =>
    cases l with
    | nil =>
      simp only [PPA.calculate_current_tariff, is_active_update_history, hact,
        if_true, hesc, hsched]
      exact ⟨trivial, trivial, fun hn => hn⟩
    | cons s0 rest =>
      simp only [PPA.calculate_current_tariff, is_active_update_history, hact,
        if_true, hesc, hsched]
      refine ⟨?_, ?_, ?_⟩
      · exact congrArg round4 (esc_fold_fst_indep _ _ _ _ _ _)
      · exact esc_fold_no_op _ _ _ _ _
          (fun s hs hle => esc_fold_all_mem _ _ _ _ _ s hs hle)
      · exact fun hn => esc_fold_nodup _ _ _ _ _ hn

/-- C5 witness: the sample custom-schedule PPA evaluated twice at its start
instant. -/
theorem claim_C5_witness :
    (({ ppa_custom with escalation_history :=
        (ppa_custom.calculate_current_tariff 0 0).2 } : PPA).calculate_current_tariff 0 0).1 =
      (ppa_custom.calculate_current_tariff 0 0).1 ∧
    (({ ppa_custom with escalation_history :=
        (ppa_custom.calculate_current_tariff 0 0).2 } : PPA).calculate_current_tariff 0 0).2 =
      (ppa_custom.calculate_current_tariff 0 0).2 ∧
    ((ppa_custom.escalation_history.map (fun e => e.year)).Nodup →
      (((ppa_custom.calculate_current_tariff 0 0).2).map (fun e => e.year)).Nodup) :=
  claim_C5 ppa_custom 0 rfl rfl

/-- The civil-calendar conversion behaves correctly on sample dates,
including a leap-year boundary and a month rollover. -/
example : addDays ⟨2024, 1, 15⟩ 32 = ⟨2024, 2, 16⟩ := by decide

example : addDays ⟨2023, 12, 31⟩ 32 = ⟨2024, 2, 1⟩ := by decide

example : addDays ⟨2024, 2, 28⟩ 2 = ⟨2024, 3, 1⟩ := by decide

example : addDays ⟨2023, 2, 28⟩ 1 = ⟨2023, 3, 1⟩ := by decide

example : addDays ⟨2024, 2, 1⟩ 92 = ⟨2024, 5, 3⟩ := by decide

/-- C6: the next billing date of update_ppa_billing is derived from the last
billing date when present (else the contract start): plus 32 days then
day set to 1 for monthly, plus 92 days then day set to 1 for quarterly, and
no next billing date at all for an annual cycle. -/
theorem claim_C6 (cycle : String) (last : Option Date) (start : Date) :
    (cycle = "monthly" →
      update_ppa_billing_next_date cycle last start =
        some (withDay1 (addDays (last.getD start) 32)) ∧
      ∀ d, update_ppa_billing_next_date cycle last start = some d → d.day = 1) ∧
    (cycle = "quarterly" →
      update_ppa_billing_next_date cycle last start =
        some (withDay1 (addDays (last.getD start) 92)) ∧
      ∀ d, update_ppa_billing_next_date cycle last start = some d → d.day = 1) ∧
    (cycle = "annually" →
      update_ppa_billing_next_date cycle last start = none) := by
  refine ⟨fun hc => ?_, fun hc => ?_, fun hc => ?_⟩
  · subst hc
    refine ⟨rfl, fun d hd => ?_⟩
    have h2 : withDay1 (addDays (last.getD start) 32) = d :=
      Option.some_inj.mp hd
    rw [← h2]
    rfl
  · subst hc
    refine ⟨rfl, fun d hd => ?_⟩
    have h2 : withDay1 (addDays (last.getD start) 92) = d :=
      Option.some_inj.mp hd
    rw [← h2]
    rfl
  · subst hc
    rfl

/-- C6 witness: a monthly cycle starting from 2024-01-15 with no prior
billing. -/
theorem claim_C6_witness :
    update_ppa_billing_next_date "monthly" none ⟨2024, 1, 15⟩ =
      some (withDay1 (addDays ((none : Option Date).getD ⟨2024, 1, 15⟩) 32)) ∧
    ∀ d, update_ppa_billing_next_date "monthly" none ⟨2024, 1, 15⟩ = some d →
      d.day = 1 :=
  (claim_C6 "monthly" none ⟨2024, 1, 15⟩).1 rfl

/-- A successful generate_ppa implies every guard of its validation chain was
passed, and pins down the initial contract status. -/
theorem generate_ppa_ok_conditions (now : ℤ) (cid : String)
    (specs : SystemSpecifications) (bt : BillingTerms) (s e : ℤ) (p : PPA)
    (h : generate_ppa now cid specs bt s e = Except.ok p) :
    s < e ∧ now - 365 * 86400 ≤ s ∧ s ≤ now + 730 * 86400 ∧
    0 < specs.capacity_kw ∧ specs.panel_type ≠ "" ∧ specs.inverter_type ≠ "" ∧
    0 < bt.tariff_rate ∧ 0 ≤ bt.escalation_rate ∧
    bt.billing_cycle ∈ (["monthly", "quarterly", "annually"] : List String) ∧
    bt.payment_terms ∈ (["net15", "net30", "net45", "net60"] : List String) ∧
    p.contractStatus =
      (if s ≤ now then ContractStatus.active else ContractStatus.draft) := by
  rw [generate_ppa] at h
  by_cases h1 : s ≥ e
  · rw [if_pos h1] at h
    exact Except.noConfusion h
  · rw [if_neg h1] at h
    by_cases h2 : s < now - 365 * 86400
    · rw [if_pos h2] at h
      exact Except.noConfusion h
    · rw [if_neg h2] at h
      by_cases h3 : s > now + 730 * 86400
      · rw [if_pos h3] at h
        exact Except.noConfusion h
      · rw [if_neg h3] at h
        by_cases h4 : specs.capacity_kw ≤ 0
        · rw [if_pos h4] at h
          exact Except.noConfusion h
        · rw [if_neg h4] at h
          by_cases h5 : specs.panel_type = ""
          · rw [if_pos h5] at h
            exact Except.noConfusion h
          · rw [if_neg h5] at h
            by_cases h6 : specs.inverter_type = ""
            · rw [if_pos h6] at h
              exact Except.noConfusion h
            · rw [if_neg h6] at h
              by_cases h7 : bt.tariff_rate ≤ 0
              · rw [if_pos h7] at h
                exact Except.noConfusion h
              · rw [if_neg h7] at h
                by_cases h8 : bt.escalation_rate < 0
                · rw [if_pos h8] at h
                  exact Except.noConfusion h
                · rw [if_neg h8] at h
                  by_cases h9 : bt.billing_cycle ∉ (["monthly", "quarterly", "annually"] : List String)
                  · rw [if_pos h9] at h
                    exact Except.noConfusion h
                  · rw [if_neg h9] at h
                    by_cases h10 : bt.payment_terms ∉ (["net15", "net30", "net45", "net60"] : List String)
                    · rw [if_pos h10] at h
                      exact Except.noConfusion h
                    · rw [if_neg h10] at h
                      have hp := Except.ok.inj h
                      subst hp
                      exact ⟨by omega, by omega, by omega, lt_of_not_le h4, h5, h6,
                        lt_of_not_le h7, le_of_not_lt h8, not_not.mp h9, not_not.mp h10, rfl⟩

/-- C7: every PPA created by a successful generate_ppa call starts active
when its start date is at or before the creation instant, draft when the
start date is strictly in the future, and never in any other status. -/
theorem claim_C7 (now : ℤ) (cid : String) (specs : SystemSpecifications)
    (bt : BillingTerms) (s e : ℤ) (p : PPA)
    (h : generate_ppa now cid specs bt s e = Except.ok p) :
    (s ≤ now → p.contractStatus = ContractStatus.active) ∧
    (now < s → p.contractStatus = ContractStatus.draft) ∧
    (p.contractStatus = ContractStatus.active ∨
      p.contractStatus = ContractStatus.draft) := by
  have hc := (generate_ppa_ok_conditions now cid specs bt s e p h).2.2.2.2.2.2.2.2.2.2
  refine ⟨fun hs => by rw [hc, if_pos hs], fun hs => by rw [hc, if_neg (not_le.mpr hs)], ?_⟩
  by_cases hs : s ≤ now
  · exact Or.inl (by rw [hc, if_pos hs])
  · exact Or.inr (by rw [hc, if_neg hs])

/-- C7 witness: a concrete successful creation with a past start date. -/
theorem claim_C7_witness :
    ∃ p, generate_ppa 0 "c" sample_specs bt_fixed (-86400) 86400 = Except.ok p ∧
      p.contractStatus = ContractStatus.active := by
  have h : generate_ppa 0 "c" sample_specs bt_fixed (-86400) 86400 =
      Except.ok
        { customer_id := "c", system_specs := sample_specs, billing_terms := bt_fixed,
          start_date := -86400, end_date := 86400,
          contractStatus := ContractStatus.active,
          total_energy_produced := 0, total_billed := 0, total_paid := 0,
          last_billing_date := none,
          contract_duration_years := ((daysBetween (-86400) 86400 : ℤ) : ℚ) / (1461/4),
          current_tariff_rate := 8,
          payment_history := [], energy_production_history := [], billing_history := [],
          escalation_history := [], opex_payment_history := [],
          business_model := BusinessModel.capex } := by
    simp only [generate_ppa, bt_fixed, sample_specs]
    norm_num
    rw [if_neg (by decide : ¬ ("mono" = "")), if_neg (by decide : ¬ ("inv-x" = ""))]
  exact ⟨_, h, (claim_C7 0 "c" sample_specs bt_fixed (-86400) 86400 _ h).1 (by decide)⟩

/-- C10: generate_ppa rejects a start date at or after the end date, more
than 365 days before the creation instant, or more than 730 days after it;
consequently every accepted PPA satisfies the window constraints. -/
theorem claim_C10 (now : ℤ) (cid : String) (specs : SystemSpecifications)
    (bt : BillingTerms) (s e : ℤ) :
    ((e ≤ s ∨ s < now - 365 * 86400 ∨ now + 730 * 86400 < s) →
      ∃ msg, generate_ppa now cid specs bt s e = Except.error msg) ∧
    (∀ p, generate_ppa now cid specs bt s e = Except.ok p →
      now - 365 * 86400 ≤ s ∧ s ≤ now + 730 * 86400 ∧ s < e) := by
  constructor
  · intro hbad
    cases hg : generate_ppa now cid specs bt s e with
    | error m => exact ⟨m, rfl⟩
    | ok p =>
      obtain ⟨h1, h2, h3, -⟩ := generate_ppa_ok_conditions now cid specs bt s e p hg
      rcases hbad with hb | hb | hb <;> omega
  · intro p hp
    obtain ⟨h1, h2, h3, -⟩ := generate_ppa_ok_conditions now cid specs bt s e p hp
    exact ⟨h2, h3, h1⟩

/-- C10 witness: a start date not strictly before the end date is
rejected. -/
theorem claim_C10_witness :
    ∃ msg, generate_ppa 0 "c" sample_specs bt_fixed 86400 0 = Except.error msg :=
  (claim_C10 0 "c" sample_specs bt_fixed 86400 0).1 (Or.inl (by decide))

/-- A lower bound on a left fold of `min` bounds the seed and every
element. -/
theorem le_foldl_min (c y : ℤ) (l : List ℤ) (h : c ≤ l.foldl min y) :
    c ≤ y ∧ ∀ z ∈ l, c ≤ z := by
  induction l generalizing y with
  | nil => exact ⟨h, by simp⟩
  | cons a rest ih =>
    simp only [List.foldl_cons] at h
    obtain ⟨h1, h2⟩ := ih (min y a) h
    rw [le_min_iff] at h1
    refine ⟨h1.1, fun z hz => ?_⟩
    rcases List.mem_cons.mp hz with rfl | hz'
    · exact h1.2
    · exact h2 z hz'

/-- A schedule that passes its validator has distinct years, all at least
1. -/
theorem validate_escalation_schedule_ok (l : List EscalationSchedule)
    (h : validate_escalation_schedule (some l) = Except.ok ()) :
    (l.map (fun sc => sc.year)).Nodup ∧ ∀ sc ∈ l, 1 ≤ sc.year := by
  simp only [validate_escalation_schedule] at h
  by_cases hnd : (l.map (fun sc => sc.year)).Nodup
  · rw [if_pos hnd] at h
    cases hm : l.map (fun sc => sc.year) with
    | nil =>
      rw [hm] at h
      exact Except.noConfusion
        (h : (Except.error "min arg is an empty sequence" : Except String Unit) =
          Except.ok ())
    | cons y ys =>
      rw [hm] at h
      have h2 : (if List.foldl min y ys < 1 then
          (Except.error "Escalation schedule years must start from 1" :
            Except String Unit)
        else Except.ok ()) = Except.ok () := h
      by_cases hmin : List.foldl min y ys < 1
      · rw [if_pos hmin] at h2
        exact Except.noConfusion h2
      · obtain ⟨hy, hall⟩ := le_foldl_min 1 y ys (not_lt.mp hmin)
        refine ⟨hm ▸ hnd, fun sc hsc => ?_⟩
        have hmem : sc.year ∈ l.map (fun sc' => sc'.year) :=
          List.mem_map_of_mem _ hsc
        rw [hm] at hmem
        rcases List.mem_cons.mp hmem with he | he
        · rw [he]; exact hy
        · exact hall _ he
  · rw [if_neg hnd] at h
    exact Except.noConfusion h

/-- A penalty rate that passes its validator is at most 10. -/
theorem penalty_ok (v : Option ℚ) (h : penalty_max_10 v = Except.ok ())
    (r : ℚ) (hr : v = some r) : r ≤ 10 := by
  subst hr
  simp only [penalty_max_10] at h
  by_cases h10 : r > 10
  · rw [if_pos h10] at h
    exact Except.noConfusion h
  · exact not_lt.mp h10

/-- Billing terms that pass the business-model validator carry a positive
amount for their model. -/
theorem business_ok (bt : BillingTerms)
    (h : validate_business_model_fields bt = Except.ok ()) :
    (bt.business_model = BusinessModel.capex →
      ∃ a, bt.capex_amount = some a ∧ 0 < a) ∧
    (bt.business_model = BusinessModel.opex →
      (∃ f, bt.opex_monthly_fee = some f ∧ 0 < f) ∧
      (∃ r, bt.opex_energy_rate = some r ∧ 0 < r)) := by
  constructor
  · intro hbm
    simp only [validate_business_model_fields, hbm] at h
    cases hca : bt.capex_amount with
    | none =>
      rw [hca] at h
      exact Except.noConfusion
        (h : (Except.error
            "CAPEX amount must be specified and greater than 0 for CAPEX model" :
          Except String Unit) = Except.ok ())
    | some a =>
      rw [hca] at h
      have h2 : (if a ≤ 0 then
          (Except.error
            "CAPEX amount must be specified and greater than 0 for CAPEX model" :
            Except String Unit)
        else Except.ok ()) = Except.ok () := h
      by_cases ha : a ≤ 0
      · rw [if_pos ha] at h2
        exact Except.noConfusion h2
      · exact ⟨a, rfl, lt_of_not_le ha⟩
  · intro hbm
    simp only [validate_business_model_fields, hbm] at h
    cases hcf : bt.opex_monthly_fee with
    | none =>
      rw [hcf] at h
      exact Except.noConfusion
        (h : (Except.error
            "OPEX monthly fee must be specified and greater than 0 for OPEX model" :
          Except String Unit) = Except.ok ())
    | some f =>
      rw [hcf] at h
      have h2 : (if f ≤ 0 then
          (Except.error
            "OPEX monthly fee must be specified and greater than 0 for OPEX model" :
            Except String Unit)
        else
          match bt.opex_energy_rate with
          | none => Except.error
              "OPEX energy rate must be specified and greater than 0 for OPEX model"
          | some r =>
            if r ≤ 0 then Except.error
                "OPEX energy rate must be specified and greater than 0 for OPEX model"
            else Except.ok ()) = Except.ok () := h
      by_cases hf : f ≤ 0
      · rw [if_pos hf] at h2
        exact Except.noConfusion h2
      · rw [if_neg hf] at h2
        cases hcr : bt.opex_energy_rate with
        | none =>
          rw [hcr] at h2
          exact Except.noConfusion
            (h2 : (Except.error
                "OPEX energy rate must be specified and greater than 0 for OPEX model" :
              Except String Unit) = Except.ok ())
        | some r =>
          rw [hcr] at h2
          have h3 : (if r ≤ 0 then
              (Except.error
                "OPEX energy rate must be specified and greater than 0 for OPEX model" :
                Except String Unit)
            else Except.ok ()) = Except.ok () := h2
          by_cases hr : r ≤ 0
          · rw [if_pos hr] at h3
            exact Except.noConfusion h3
          · exact ⟨⟨f, rfl, lt_of_not_le hf⟩, ⟨r, rfl, lt_of_not_le hr⟩⟩

/-- C8: PPA / billing-terms creation fails with a validation error whenever
the tariff rate is non-positive, the escalation rate negative, the billing
cycle or payment terms invalid, the penalty rate above 10, the escalation
schedule non-unique or holding a year below 1, or the business-model amount
missing or non-positive. -/
theorem claim_C8 (now : ℤ) (cid : String) (specs : SystemSpecifications)
    (bt : BillingTerms) (s e : ℤ)
    (hbad :
      bt.tariff_rate ≤ 0 ∨
      bt.escalation_rate < 0 ∨
      bt.billing_cycle ∉ (["monthly", "quarterly", "annually"] : List String) ∨
      bt.payment_terms ∉ (["net15", "net30", "net45", "net60"] : List String) ∨
      (∃ v, bt.latePaymentPenaltyRate = some v ∧ 10 < v) ∨
      (∃ l, bt.escalation_schedule = some l ∧
        (¬ (l.map (fun sc => sc.year)).Nodup ∨ ∃ sc ∈ l, sc.year < 1)) ∨
      (bt.business_model = BusinessModel.capex ∧
        ∀ a, bt.capex_amount = some a → a ≤ 0) ∨
      (bt.business_model = BusinessModel.opex ∧
        ((∀ f, bt.opex_monthly_fee = some f → f ≤ 0) ∨
         (∀ r, bt.opex_energy_rate = some r → r ≤ 0)))) :
    ∃ msg, create_ppa now cid specs bt s e = Except.error msg := by
  cases hc : create_ppa now cid specs bt s e with
  | error m => exact ⟨m, rfl⟩
  | ok p =>
    exfalso
    rw [create_ppa] at hc
    cases hv : billing_terms_validators bt with
    | error m =>
      rw [hv] at hc
      exact Except.noConfusion
        (hc : (Except.error m : Except String PPA) = Except.ok p)
    | ok u =>
      rw [hv] at hc
      obtain ⟨-, -, -, -, -, -, h7, h8, h9, h10, -⟩ :=
        generate_ppa_ok_conditions now cid specs bt s e p
          (hc : generate_ppa now cid specs bt s e = Except.ok p)
      rw [billing_terms_validators] at hv
      cases hs : validate_escalation_schedule bt.escalation_schedule with
      | error m =>
        rw [hs] at hv
        exact Except.noConfusion
          (hv : (Except.error m : Except String Unit) = Except.ok u)
      | ok u1 =>
        rw [hs] at hv
        cases hp : penalty_max_10 bt.latePaymentPenaltyRate with
        | error m =>
          rw [hp] at hv
          exact Except.noConfusion
            (hv : (Except.error m : Except String Unit) = Except.ok u)
        | ok u2 =>
          rw [hp] at hv
          have hbus : validate_business_model_fields bt = Except.ok () := hv
          rcases hbad with hb | hb | hb | hb | hb | hb | hb | hb
          · exact absurd h7 (not_lt.mpr hb)
          · exact absurd hb (not_lt.mpr h8)
          · exact hb h9
          · exact hb h10
          · obtain ⟨v, hv1, hv2⟩ := hb
            exact absurd (penalty_ok _ (hp ▸ rfl) v hv1) (not_le.mpr hv2)
          · obtain ⟨l, hl, hbadl⟩ := hb
            rw [hl] at hs
            obtain ⟨hnd, hall⟩ := validate_escalation_schedule_ok l
              (by rw [hs])
            rcases hbadl with hx | ⟨sc, hsc, hsc1⟩
            · exact hx hnd
            · exact absurd (hall sc hsc) (not_le.mpr hsc1)
          · obtain ⟨hbm, hcap⟩ := hb
            obtain ⟨a, ha, ha0⟩ := (business_ok bt hbus).1 hbm
            exact absurd ha0 (not_lt.mpr (hcap a ha))
          · obtain ⟨hbm, hop⟩ := hb
            obtain ⟨⟨f, hf, hf0⟩, r, hr, hr0⟩ := (business_ok bt hbus).2 hbm
            rcases hop with hx | hx
            · exact absurd hf0 (not_lt.mpr (hx f hf))
            · exact absurd hr0 (not_lt.mpr (hx r hr))

/-- C8 witness: a zero tariff rate makes creation fail. -/
theorem claim_C8_witness :
    ∃ msg, create_ppa 0 "c" sample_specs bt_bad_tariff (-86400) 86400 =
      Except.error msg :=
  claim_C8 0 "c" sample_specs bt_bad_tariff (-86400) 86400
    (Or.inl (le_refl 0))
